import Mathlib

/-!
Shallow embedding of the `weather` application (a three-stage IP → geolocation
→ weather lookup chain) and proofs about its parsing, error-mapping,
formatting and entry-point behavior.

Modelling conventions:
* A JSON document is represented by the inductive `JValue`; a raw HTTP
  response body is a `Raw`, which is either `malformed` (text that
  `json.loads` rejects) or `wellFormed v` (text whose parse result is `v`).
  The character-level JSON parser itself is not modelled.
* Python exceptions are the inductive `PyExc`; a fallible computation is an
  `Except PyExc α`.  `try/except` clauses become `match` arms that translate
  exactly the caught exception constructors and re-raise the rest.
* The network is a parameter: `Env` carries, per endpoint, either a response
  body or a transport failure (`URLError`), which is what `urllib.request`
  can produce.
* Machine floats from the source are modelled as rationals; the digit-level
  repr of non-integral floats is not modelled (no claim depends on it).
-/

/-- A parsed JSON value as produced by Python's `json.loads`: integer
literals become `int`, decimal literals become `float`, objects become
string-keyed association lists (keys unique, as in a Python dict). -/
inductive JValue where
  | null : JValue
  | bool (b : Bool) : JValue
  | int (n : Int) : JValue
  | float (q : ℚ) : JValue
  | str (s : String) : JValue
  | arr (xs : List JValue) : JValue
  | obj (fields : List (String × JValue)) : JValue

/-- A raw response body, identified with its parse status: either text that
`json.loads` rejects, or text whose parse result is the given `JValue`. -/
inductive Raw where
  | malformed : Raw
  | wellFormed (v : JValue) : Raw

/-- The Python exceptions that arise in this program. -/
inductive PyExc where
  | apiServiceError : PyExc
  | getCoordinatesError : PyExc
  | keyError : PyExc
  | indexError : PyExc
  | typeError : PyExc
  | jsonDecodeError : PyExc
  | urlError : PyExc
  deriving DecidableEq, Repr

/-- `json.loads` on a raw body: a body that is not valid JSON raises
`JSONDecodeError`. -/
def json_loads : Raw → Except PyExc JValue
  | .malformed => .error .jsonDecodeError
  | .wellFormed v => .ok v

/-- First-match lookup in a string-keyed association list (Python dict
lookup; keys are unique in a dict produced by `json.loads`). -/
def lookupFirst : List (String × JValue) → String → Option JValue
  | [], _ => none
  | (k, v) :: rest, key => if k = key then some v else lookupFirst rest key

/-- Python subscripting `v[k]` with a string key `k`: dict lookup raises
`KeyError` when the key is absent; subscripting any non-dict JSON value with
a string key raises `TypeError`. -/
def getItemStr (v : JValue) (k : String) : Except PyExc JValue :=
  match v with
  | .obj fields =>
      match lookupFirst fields k with
      | some x => .ok x
      | none => .error .keyError
  | _ => .error .typeError

/-- Python subscripting `v[i]` with a non-negative integer index: list
indexing raises `IndexError` out of range; a JSON dict has string keys only,
so an integer key raises `KeyError`; string indexing yields a one-character
string; subscripting other values raises `TypeError`. -/
def getItemIdx (v : JValue) (i : Nat) : Except PyExc JValue :=
  match v with
  | .arr xs =>
      match xs.get? i with
      | some x => .ok x
      | none => .error .indexError
  | .obj _ => .error .keyError
  | .str s =>
      match s.data.get? i with
      | some c => .ok (.str (String.mk [c]))
      | none => .error .indexError
  | _ => .error .typeError

/-- Rendering of a float by Python's `str`; the digit-level shortest
round-trip repr of non-integral values is not modelled (no claim depends on
those digits). -/
def pyFloatStr (q : ℚ) : String :=
  if q.den = 1 then toString q.num ++ ".0" else toString q

/-- Python's `str(...)` on a JSON value.  Only the scalar cases are ever
reached in this program (`str` is applied to the weather code, and f-strings
interpolate the city and temperature); container rendering is a placeholder
no claim depends on. -/
def pyStr : JValue → String
  | .null => "None"
  | .bool b => if b then "True" else "False"
  | .int n => toString n
  | .float q => pyFloatStr q
  | .str s => s
  | .arr _ => "\x7barray\x7d"
  | .obj _ => "\x7bobject\x7d"

/-- Python `s.startswith(p)`. -/
def pyStartswith (s p : String) : Bool :=
  p.data.isPrefixOf s.data

/-- The network environment of one program run: for each of the three
endpoints, a response body or a transport failure (`URLError`).  URL
construction itself (query-string formatting) is not modelled; each
endpoint's response is fixed per run. -/
structure Env where
  ipifyResponse : Except Unit Raw
  geoResponse : Except Unit Raw
  owmResponse : Except Unit Raw

/-- `Coordinates` named tuple.  A `NamedTuple` performs no runtime coercion,
so the fields hold exactly the JSON values extracted from the geolocation
response. -/
structure Coordinates where
  latitude : JValue
  longitude : JValue

/-- `_extract_ip_address`: `json.loads` wrapped in
`except JSONDecodeError: raise GetCoordinatesError`; the subsequent
`ip_dict["ip"]` access is outside any handler, so its `KeyError` (or
`TypeError` for a non-dict document) propagates. -/
def _extract_ip_address (ip_data : Raw) : Except PyExc JValue :=
  match json_loads ip_data with
  | .error _ => .error .getCoordinatesError
  | .ok ip_dict => getItemStr ip_dict "ip"

/-- `_fetch_user_ip`: the `try` block catches only `URLError` (the transport
failure), mapping it to `GetCoordinatesError`; `_extract_ip_address` raises
no `URLError`, so its exceptions pass through. -/
def _fetch_user_ip (env : Env) : Except PyExc JValue :=
  match env.ipifyResponse with
  | .error _ => .error .getCoordinatesError
  | .ok ip_data => _extract_ip_address ip_data

/-- `_fetch_user_coordinates_data`: the URL concatenation
`"https://ipapi.co/" + user_ip + "/json/"` raises `TypeError` when `user_ip`
is not a string; the `try` block catches only `URLError`, so the
`JSONDecodeError` of `json.loads` on a malformed body propagates uncaught. -/
def _fetch_user_coordinates_data (env : Env) (user_ip : JValue) :
    Except PyExc JValue :=
  match user_ip with
  | .str _ =>
      match env.geoResponse with
      | .error _ => .error .getCoordinatesError
      | .ok coordinates_data => json_loads coordinates_data
  | _ => .error .typeError

/-- `fetch_user_coordinates`: fetch the IP, fetch the geolocation document,
then build `Coordinates(coordinates_data["latitude"],
coordinates_data["longitude"])`; the two key accesses are outside any
handler, evaluated left to right. -/
def fetch_user_coordinates (env : Env) : Except PyExc Coordinates :=
  match _fetch_user_ip env with
  | .error e => .error e
  | .ok user_ip =>
      match _fetch_user_coordinates_data env user_ip with
      | .error e => .error e
      | .ok coordinates_data =>
          match getItemStr coordinates_data "latitude" with
          | .error e => .error e
          | .ok lat =>
              match getItemStr coordinates_data "longitude" with
              | .error e => .error e
              | .ok lon => .ok ⟨lat, lon⟩

/-- `WeatherType` enumeration (the label spellings are the `Enum` member
values from the source, including "Thundershtorm"). -/
inductive WeatherType where
  | THUNDERSHTORM : WeatherType
  | DRIZZLE : WeatherType
  | RAIN : WeatherType
  | SNOW : WeatherType
  | CLEAR : WeatherType
  | FOG : WeatherType
  | CLOUDS : WeatherType
  deriving DecidableEq, Repr

/-- The `.value` attribute of each `WeatherType` enum member. -/
def WeatherType.value : WeatherType → String
  | .THUNDERSHTORM => "Thundershtorm"
  | .DRIZZLE => "Drizzle"
  | .RAIN => "Rain"
  | .SNOW => "Snow"
  | .CLEAR => "Clear"
  | .FOG => "Fog"
  | .CLOUDS => "Clouds"

/-- A timezone-aware UTC `datetime`, identified with its (possibly
fractional) seconds since the Unix epoch; calendar fields are derived
functions. -/
structure Datetime where
  epochSeconds : ℚ
  deriving DecidableEq, Repr

/-- Whole seconds since the epoch (fractional part becomes the microsecond
field, which this program never reads). -/
def Datetime.wholeSeconds (dt : Datetime) : Int :=
  dt.epochSeconds.floor

/-- Hour of day of a UTC datetime (Python's floor-mod semantics for a
positive modulus coincide with Euclidean mod). -/
def Datetime.hour (dt : Datetime) : Int :=
  (dt.wholeSeconds.emod 86400) / 3600

/-- Minute of hour of a UTC datetime. -/
def Datetime.minute (dt : Datetime) : Int :=
  (dt.wholeSeconds.emod 3600) / 60

/-- Second of minute of a UTC datetime. -/
def Datetime.second (dt : Datetime) : Int :=
  dt.wholeSeconds.emod 60

/-- Days since 1970-01-01 of the instant (floor division). -/
def Datetime.daysFromEpoch (dt : Datetime) : Int :=
  dt.wholeSeconds.ediv 86400

/-- Proleptic-Gregorian civil date (year, month, day) from a count of days
since 1970-01-01 (the standard era-based civil-from-days computation; all
intermediate divisions have positive divisors, so Euclidean division is
floor division). -/
def civilFromDays (z0 : Int) : Int × Int × Int :=
  let z := z0 + 719468
  let era := z.ediv 146097
  let doe := z - era * 146097
  let yoe := (doe - doe.ediv 1460 + doe.ediv 36524 - doe.ediv 146096).ediv 365
  let y := yoe + era * 400
  let doy := doe - (365 * yoe + yoe.ediv 4 - yoe.ediv 100)
  let mp := (5 * doy + 2).ediv 153
  let d := doy - (153 * mp + 2).ediv 5 + 1
  let m := mp + (if mp < 10 then 3 else (-9 : Int))
  (if m ≤ 2 then y + 1 else y, m, d)

/-- The (year, month, day) of a UTC datetime. -/
def Datetime.dateUTC (dt : Datetime) : Int × Int × Int :=
  civilFromDays dt.daysFromEpoch

/-- `datetime.fromtimestamp(v, tz=timezone.utc)`: defined on numbers
(Python's `bool` is an `int` subtype, so it counts); any other argument
raises `TypeError`. -/
def datetime_fromtimestamp_utc (v : JValue) : Except PyExc Datetime :=
  match v with
  | .int n => .ok ⟨(n : ℚ)⟩
  | .float q => .ok ⟨q⟩
  | .bool b => .ok ⟨if b then 1 else 0⟩
  | _ => .error .typeError

/-- `Weather` named tuple.  `city` and `temperature` hold exactly the JSON
values extracted from the response (a `NamedTuple` performs no coercion). -/
structure Weather where
  weather_type : WeatherType
  city : JValue
  temperature : JValue
  sunrise : Datetime
  sunset : Datetime

/-- The ordered `weather_types` dict of `_parse_weather_type` (Python dicts
preserve insertion order). -/
def weather_types : List (String × WeatherType) :=
  [("1", .THUNDERSHTORM), ("3", .DRIZZLE), ("5", .RAIN), ("6", .SNOW),
   ("7", .FOG), ("800", .CLEAR), ("80", .CLOUDS)]

/-- The prefix-matching loop of `_parse_weather_type`: return the value of
the first entry whose key is a prefix of the code string; if none matches,
raise `ApiServiceError`. -/
def classify_weather_id (weather_type_id : String) : Except PyExc WeatherType :=
  match weather_types.find? (fun p => pyStartswith weather_type_id p.1) with
  | some p => .ok p.2
  | none => .error .apiServiceError

/-- `_parse_weather_type`: `str(owm_dict["weather"][0]["id"])` wrapped in
`except (IndexError, KeyError): raise ApiServiceError` (a `TypeError` from
subscripting a wrongly-typed value is not caught), then the prefix loop. -/
def _parse_weather_type (owm_dict : JValue) : Except PyExc WeatherType :=
  match getItemStr owm_dict "weather" with
  | .error .keyError => .error .apiServiceError
  | .error e => .error e
  | .ok w =>
      match getItemIdx w 0 with
      | .error .keyError => .error .apiServiceError
      | .error .indexError => .error .apiServiceError
      | .error e => .error e
      | .ok w0 =>
          match getItemStr w0 "id" with
          | .error .keyError => .error .apiServiceError
          | .error e => .error e
          | .ok idv => classify_weather_id (pyStr idv)

/-- `_parse_city`: `owm_dict["name"]` wrapped in
`except KeyError: raise ApiServiceError`. -/
def _parse_city (owm_dict : JValue) : Except PyExc JValue :=
  match getItemStr owm_dict "name" with
  | .error .keyError => .error .apiServiceError
  | .error e => .error e
  | .ok v => .ok v

/-- `_parse_temperature`: `owm_dict["main"]["temp"]` wrapped in
`except KeyError: raise ApiServiceError`. -/
def _parse_temperature (owm_dict : JValue) : Except PyExc JValue :=
  match getItemStr owm_dict "main" with
  | .error .keyError => .error .apiServiceError
  | .error e => .error e
  | .ok m =>
      match getItemStr m "temp" with
      | .error .keyError => .error .apiServiceError
      | .error e => .error e
      | .ok t => .ok t

/-- `_parse_sun_time`: `owm_dict["sys"][time]` then
`datetime.fromtimestamp(timestamp, tz=timezone.utc)`, all inside
`except KeyError: raise ApiServiceError`; `fromtimestamp` can only raise
`TypeError`, which the handler does not catch. -/
def _parse_sun_time (owm_dict : JValue) (time : String) : Except PyExc Datetime :=
  match getItemStr owm_dict "sys" with
  | .error .keyError => .error .apiServiceError
  | .error e => .error e
  | .ok sysv =>
      match getItemStr sysv time with
      | .error .keyError => .error .apiServiceError
      | .error e => .error e
      | .ok timestamp => datetime_fromtimestamp_utc timestamp

/-- `_parse_owm_response`: `json.loads` wrapped in
`except JSONDecodeError: raise ApiServiceError`, then the `Weather(...)`
constructor whose keyword arguments are evaluated left to right. -/
def _parse_owm_response (response : Raw) : Except PyExc Weather :=
  match json_loads response with
  | .error _ => .error .apiServiceError
  | .ok owm_dict =>
      match _parse_weather_type owm_dict with
      | .error e => .error e
      | .ok weather_type =>
          match _parse_city owm_dict with
          | .error e => .error e
          | .ok city =>
              match _parse_temperature owm_dict with
              | .error e => .error e
              | .ok temperature =>
                  match _parse_sun_time owm_dict "sunrise" with
                  | .error e => .error e
                  | .ok sunrise =>
                      match _parse_sun_time owm_dict "sunset" with
                      | .error e => .error e
                      | .ok sunset =>
                          .ok ⟨weather_type, city, temperature, sunrise, sunset⟩

/-- `_get_owm_response`: the network call, with `except URLError: raise
ApiServiceError`. -/
def _get_owm_response (env : Env) : Except PyExc Raw :=
  match env.owmResponse with
  | .error _ => .error .apiServiceError
  | .ok response => .ok response

/-- `get_weather`: fetch then parse.  The coordinates only parameterize the
request URL, which is not modelled (the environment fixes the weather
endpoint's response for the run). -/
def get_weather (env : Env) (_coordinates : Coordinates) : Except PyExc Weather :=
  match _get_owm_response env with
  | .error e => .error e
  | .ok owm_response => _parse_owm_response owm_response

/-- Zero-padding to two digits as done by `strftime` for `%H` and `%M`. -/
def pad2 (n : Int) : String :=
  if n < 10 then "0" ++ toString n else toString n

/-- `dt.strftime('%H:%M')` for a UTC datetime. -/
def strftimeHM (dt : Datetime) : String :=
  pad2 dt.hour ++ ":" ++ pad2 dt.minute

/-- `format_weather`: the fixed multi-line template built by the source's
string concatenation and f-strings. -/
def format_weather (weather : Weather) : String :=
  "\n"
    ++ pyStr weather.city ++ " - " ++ weather.weather_type.value ++ ":\n"
    ++ " - Temperature: " ++ pyStr weather.temperature ++ "°C\n"
    ++ " - Sunrise: " ++ strftimeHM weather.sunrise ++ "\n"
    ++ " - Sunset: " ++ strftimeHM weather.sunset
    ++ "\n"

/-- Observable outcome of one run of the program: a process exit with the
text written to stdout, or an exception that escaped `main` (which also
terminates the process, but through the interpreter's traceback path). -/
inductive MainOutcome where
  | exited (code : Nat) (stdout : String) : MainOutcome
  | uncaught (e : PyExc) : MainOutcome

/-- `main` (named `py_main` here because Lean reserves `main` for
executables): `fetch_user_coordinates` guarded by
`except GetCoordinatesError: exit(1)`, then `get_weather` guarded by
`except ApiServiceError: exit(1)`, then `print(format_weather(weather))`
(Python's `print` appends a newline) and a normal exit with code 0. -/
def py_main (env : Env) : MainOutcome :=
  match fetch_user_coordinates env with
  | .error .getCoordinatesError => .exited 1 ""
  | .error e => .uncaught e
  | .ok coordinates =>
      match get_weather env coordinates with
      | .error .apiServiceError => .exited 1 ""
      | .error e => .uncaught e
      | .ok weather => .exited 0 (format_weather weather ++ "\n")

/-- A JSON value that is a number (integer or float). -/
def isNumeric (v : JValue) : Prop :=
  (∃ n, v = JValue.int n) ∨ (∃ q, v = JValue.float q)

/-- Helper: a code string that starts with "800" is classified before the
"80" entry is reached, so it maps to Clear. -/
theorem classify_of_800_prefix (t : List Char) :
    classify_weather_id (String.mk ('8' :: '0' :: '0' :: t)) = .ok .CLEAR := by
  simp [classify_weather_id, weather_types, pyStartswith, List.isPrefixOf]

/-- C1: the condition mapping is order-sensitive prefix matching over the
declared list: any code string starting with "800" maps to Clear (the "800"
entry is tried before "80"); "801" maps to Clouds; "500" maps to Rain; a
code string matching no declared prefix (such as "900") raises
`ApiServiceError`, and through `get_weather` the whole lookup then fails
with `ApiServiceError`. -/
theorem c1_condition_prefix_mapping :
    (∀ s : String, pyStartswith s "800" = true →
        classify_weather_id s = .ok .CLEAR)
    ∧ classify_weather_id "801" = .ok .CLOUDS
    ∧ classify_weather_id "500" = .ok .RAIN
    ∧ (∀ s : String, (∀ p ∈ weather_types, pyStartswith s p.1 = false) →
        classify_weather_id s = .error .apiServiceError)
    ∧ classify_weather_id "900" = .error .apiServiceError
    ∧ (∀ (env : Env) (c : Coordinates) (fields wfields : List (String × JValue))
          (idv : JValue),
        env.owmResponse = .ok (.wellFormed (.obj fields)) →
        lookupFirst fields "weather" = some (.arr [.obj wfields]) →
        lookupFirst wfields "id" = some idv →
        classify_weather_id (pyStr idv) = .error .apiServiceError →
        get_weather env c = .error .apiServiceError) := by
  refine ⟨?_, rfl, rfl, ?_, rfl, ?_⟩
  · intro s h
    obtain ⟨l⟩ := s
    obtain ⟨t, ht⟩ := List.isPrefixOf_iff_prefix.mp h
    have hl : l = '8' :: '0' :: '0' :: t := ht.symm
    subst hl
    exact classify_of_800_prefix t
  · intro s h
    unfold classify_weather_id
    cases hf : List.find? (fun p => pyStartswith s p.1) weather_types with
    | none => rfl
    | some p =>
        have h1 := List.find?_some hf
        have h2 := List.mem_of_find?_eq_some hf
        rw [h p h2] at h1
        exact absurd h1 (by simp)
  · intro env c fields wfields idv he hw hid hcl
    simp [get_weather, _get_owm_response, he, _parse_owm_response, json_loads,
      _parse_weather_type, getItemStr, hw, getItemIdx, hid, hcl]

/-- Witness for C1 at concrete inputs: "8001" starts with "800" and maps to
Clear; "900" matches no declared prefix; a full response with code 900 makes
`get_weather` fail with `ApiServiceError`. -/
theorem c1_condition_prefix_mapping_witness :
    classify_weather_id "8001" = .ok .CLEAR
    ∧ classify_weather_id "905" = .error .apiServiceError
    ∧ get_weather
        ⟨.ok (.wellFormed (.obj [("ip", .str "1.2.3.4")])), .error (),
         .ok (.wellFormed (.obj [("weather", .arr [.obj [("id", .int 900)]])]))⟩
        ⟨.int 0, .int 0⟩ = .error .apiServiceError :=
  ⟨c1_condition_prefix_mapping.1 "8001" rfl,
   c1_condition_prefix_mapping.2.2.2.1 "905" (by decide),
   c1_condition_prefix_mapping.2.2.2.2.2 _ ⟨.int 0, .int 0⟩ _ _ _
     rfl rfl rfl rfl⟩

/-- C2: numeric code 200 is NOT mapped to Thunderstorm by the code: the
declared prefixes are "1", "3", "5", "6", "7", "800", "80", none of which
the string "200" starts with, so the weather-type parse and hence
`get_weather` fail with `ApiServiceError` on an otherwise fully valid
response with `weather[0].id = 200`. -/
theorem c2_code_200_is_unmapped :
    classify_weather_id "200" = .error .apiServiceError
    ∧ _parse_weather_type
        (.obj [("weather", .arr [.obj [("id", .int 200)]])]) =
        .error .apiServiceError
    ∧ get_weather
        ⟨.ok (.wellFormed (.obj [("ip", .str "1.2.3.4")])),
         .ok (.wellFormed (.obj [("latitude", .int 1), ("longitude", .int 2)])),
         .ok (.wellFormed (.obj
           [("weather", .arr [.obj [("id", .int 200)]]),
            ("name", .str "City"),
            ("main", .obj [("temp", .int 20)]),
            ("sys", .obj [("sunrise", .int 0), ("sunset", .int 0)])]))⟩
        ⟨.int 1, .int 2⟩ = .error .apiServiceError :=
  ⟨rfl, rfl, rfl⟩

/-- Counterexample to C3: a valid JSON object lacking the "ip" field makes
`_extract_ip_address` raise `KeyError`, which is a different exception from
`GetCoordinatesError` (only the `JSONDecodeError` branch is mapped). -/
theorem c3_counterexample :
    _extract_ip_address (.wellFormed (.obj [])) = .error .keyError
    ∧ PyExc.keyError ≠ PyExc.getCoordinatesError :=
  ⟨rfl, by decide⟩

/-- C3 (amended): a response body that is not valid JSON makes the IP
extraction fail with `GetCoordinatesError`, but a valid JSON object lacking
the "ip" field makes it fail with an uncaught `KeyError` (a Python
`LookupError`), which escapes the `GetCoordinatesError` mapping. -/
theorem c3_ip_extraction_errors :
    _extract_ip_address .malformed = .error .getCoordinatesError
    ∧ (∀ fields : List (String × JValue), lookupFirst fields "ip" = none →
        _extract_ip_address (.wellFormed (.obj fields)) = .error .keyError) := by
  refine ⟨rfl, ?_⟩
  intro fields h
  simp [_extract_ip_address, json_loads, getItemStr, h]

/-- Witness for C3 (amended) at a concrete object without an "ip" field. -/
theorem c3_ip_extraction_errors_witness :
    _extract_ip_address (.wellFormed (.obj [("x", .null)])) = .error .keyError :=
  c3_ip_extraction_errors.2 [("x", .null)] rfl

/-- Counterexample to C4: with a well-formed IP response and a valid JSON
geolocation body lacking "latitude", `fetch_user_coordinates` fails with an
uncaught `KeyError`, not with `GetCoordinatesError`. -/
theorem c4_counterexample :
    fetch_user_coordinates
      ⟨.ok (.wellFormed (.obj [("ip", .str "1.2.3.4")])),
       .ok (.wellFormed (.obj [("longitude", .int 1)])),
       .error ()⟩ = .error .keyError
    ∧ PyExc.keyError ≠ PyExc.getCoordinatesError :=
  ⟨rfl, by decide⟩

/-- C4 (amended): a valid JSON geolocation response lacking "latitude" (or
having "latitude" but lacking "longitude") makes `fetch_user_coordinates`
fail loudly with an uncaught `KeyError` (a Python `LookupError`); the
failure is not silently defaulted, but it is also not mapped to
`GetCoordinatesError`. -/
theorem c4_missing_geo_field_fails_with_key_error :
    (∀ (env : Env) (ip : String) (fields : List (String × JValue)),
        _fetch_user_ip env = .ok (.str ip) →
        env.geoResponse = .ok (.wellFormed (.obj fields)) →
        lookupFirst fields "latitude" = none →
        fetch_user_coordinates env = .error .keyError)
    ∧ (∀ (env : Env) (ip : String) (fields : List (String × JValue)) (v : JValue),
        _fetch_user_ip env = .ok (.str ip) →
        env.geoResponse = .ok (.wellFormed (.obj fields)) →
        lookupFirst fields "latitude" = some v →
        lookupFirst fields "longitude" = none →
        fetch_user_coordinates env = .error .keyError) := by
  constructor
  · intro env ip fields h1 h2 h3
    simp [fetch_user_coordinates, h1, _fetch_user_coordinates_data, h2,
      json_loads, getItemStr, h3]
  · intro env ip fields v h1 h2 h3 h4
    simp [fetch_user_coordinates, h1, _fetch_user_coordinates_data, h2,
      json_loads, getItemStr, h3, h4]

/-- Witness for C4 (amended): both hypothesized situations at concrete
environments. -/
theorem c4_missing_geo_field_fails_with_key_error_witness :
    fetch_user_coordinates
      ⟨.ok (.wellFormed (.obj [("ip", .str "1.2.3.4")])),
       .ok (.wellFormed (.obj [("longitude", .int 1)])),
       .error ()⟩ = .error .keyError
    ∧ fetch_user_coordinates
        ⟨.ok (.wellFormed (.obj [("ip", .str "1.2.3.4")])),
         .ok (.wellFormed (.obj [("latitude", .int 7)])),
         .error ()⟩ = .error .keyError :=
  ⟨c4_missing_geo_field_fails_with_key_error.1 _ "1.2.3.4" _ rfl rfl rfl,
   c4_missing_geo_field_fails_with_key_error.2 _ "1.2.3.4" _ (.int 7)
     rfl rfl rfl rfl⟩

/-- C6: for a valid JSON geolocation response with numeric "latitude" and
"longitude" fields, `fetch_user_coordinates` returns a `Coordinates` whose
fields are exactly those JSON values — no rounding or transformation (the
`NamedTuple` stores the extracted values unchanged). -/
theorem c6_exact_coordinates :
    ∀ (env : Env) (ip : String) (fields : List (String × JValue))
      (vlat vlon : JValue),
      _fetch_user_ip env = .ok (.str ip) →
      env.geoResponse = .ok (.wellFormed (.obj fields)) →
      lookupFirst fields "latitude" = some vlat →
      lookupFirst fields "longitude" = some vlon →
      isNumeric vlat → isNumeric vlon →
      fetch_user_coordinates env = .ok ⟨vlat, vlon⟩ := by
  intro env ip fields vlat vlon h1 h2 h3 h4 _ _
  simp [fetch_user_coordinates, h1, _fetch_user_coordinates_data, h2,
    json_loads, getItemStr, h3, h4]

/-- Witness for C6 at a concrete environment with latitude 51.5 and
longitude -0.12. -/
theorem c6_exact_coordinates_witness :
    fetch_user_coordinates
      ⟨.ok (.wellFormed (.obj [("ip", .str "1.2.3.4")])),
       .ok (.wellFormed (.obj
         [("latitude", .float (103 / 2)), ("longitude", .float (-3 / 25))])),
       .error ()⟩ =
      .ok ⟨.float (103 / 2), .float (-3 / 25)⟩ :=
  c6_exact_coordinates _ "1.2.3.4" _ _ _ rfl rfl rfl rfl
    (Or.inr ⟨103 / 2, rfl⟩) (Or.inr ⟨-3 / 25, rfl⟩)

/-- C5: for a valid JSON weather response, each of a missing `main.temp`, a
missing top-level `name`, a missing `sys.sunrise` or `sys.sunset`, and an
empty `weather` list independently makes `get_weather` fail with
`ApiServiceError` (each conjunct assumes only that the parse stages
evaluated before the failing one succeed, matching the left-to-right
evaluation of the `Weather(...)` constructor arguments). -/
theorem c5_missing_fields_api_error :
    (∀ (env : Env) (c : Coordinates) (fields m : List (String × JValue))
        (wt : WeatherType) (ct : JValue),
      env.owmResponse = .ok (.wellFormed (.obj fields)) →
      _parse_weather_type (.obj fields) = .ok wt →
      _parse_city (.obj fields) = .ok ct →
      lookupFirst fields "main" = some (.obj m) →
      lookupFirst m "temp" = none →
      get_weather env c = .error .apiServiceError)
    ∧ (∀ (env : Env) (c : Coordinates) (fields : List (String × JValue))
          (wt : WeatherType),
        env.owmResponse = .ok (.wellFormed (.obj fields)) →
        _parse_weather_type (.obj fields) = .ok wt →
        lookupFirst fields "name" = none →
        get_weather env c = .error .apiServiceError)
    ∧ (∀ (env : Env) (c : Coordinates) (fields sysf : List (String × JValue))
          (wt : WeatherType) (ct tv : JValue),
        env.owmResponse = .ok (.wellFormed (.obj fields)) →
        _parse_weather_type (.obj fields) = .ok wt →
        _parse_city (.obj fields) = .ok ct →
        _parse_temperature (.obj fields) = .ok tv →
        lookupFirst fields "sys" = some (.obj sysf) →
        lookupFirst sysf "sunrise" = none →
        get_weather env c = .error .apiServiceError)
    ∧ (∀ (env : Env) (c : Coordinates) (fields sysf : List (String × JValue))
          (wt : WeatherType) (ct tv : JValue) (dt : Datetime),
        env.owmResponse = .ok (.wellFormed (.obj fields)) →
        _parse_weather_type (.obj fields) = .ok wt →
        _parse_city (.obj fields) = .ok ct →
        _parse_temperature (.obj fields) = .ok tv →
        _parse_sun_time (.obj fields) "sunrise" = .ok dt →
        lookupFirst fields "sys" = some (.obj sysf) →
        lookupFirst sysf "sunset" = none →
        get_weather env c = .error .apiServiceError)
    ∧ (∀ (env : Env) (c : Coordinates) (fields : List (String × JValue)),
        env.owmResponse = .ok (.wellFormed (.obj fields)) →
        lookupFirst fields "weather" = some (.arr []) →
        get_weather env c = .error .apiServiceError) := by
  refine ⟨?_, ?_, ?_, ?_, ?_⟩
  · intro env c fields m wt ct he hwt hct hm ht
    simp [get_weather, _get_owm_response, he, _parse_owm_response, json_loads,
      hwt, hct, _parse_temperature, getItemStr, hm, ht]
  · intro env c fields wt he hwt hn
    simp [get_weather, _get_owm_response, he, _parse_owm_response, json_loads,
      hwt, _parse_city, getItemStr, hn]
  · intro env c fields sysf wt ct tv he hwt hct htv hs hsr
    simp [get_weather, _get_owm_response, he, _parse_owm_response, json_loads,
      hwt, hct, htv, _parse_sun_time, getItemStr, hs, hsr]
  · intro env c fields sysf wt ct tv dt he hwt hct htv hsr hs hss
    have hsunset : _parse_sun_time (.obj fields) "sunset" =
        .error .apiServiceError := by
      simp [_parse_sun_time, getItemStr, hs, hss]
    simp [get_weather, _get_owm_response, he, _parse_owm_response, json_loads,
      hwt, hct, htv, hsr, hsunset]
  · intro env c fields he hw
    simp [get_weather, _get_owm_response, he, _parse_owm_response, json_loads,
      _parse_weather_type, getItemStr, hw, getItemIdx]

/-- Witness for C5: five concrete responses, each fully valid except for the
one missing piece (temp, name, sunrise, sunset, empty weather list), all
driving `get_weather` to `ApiServiceError`. -/
theorem c5_missing_fields_api_error_witness :
    get_weather
      ⟨.error (), .error (),
       .ok (.wellFormed (.obj
         [("weather", .arr [.obj [("id", .int 800)]]), ("name", .str "A"),
          ("main", .obj []),
          ("sys", .obj [("sunrise", .int 0), ("sunset", .int 0)])]))⟩
      ⟨.int 0, .int 0⟩ = .error .apiServiceError
    ∧ get_weather
        ⟨.error (), .error (),
         .ok (.wellFormed (.obj
           [("weather", .arr [.obj [("id", .int 800)]]),
            ("main", .obj [("temp", .int 5)]),
            ("sys", .obj [("sunrise", .int 0), ("sunset", .int 0)])]))⟩
        ⟨.int 0, .int 0⟩ = .error .apiServiceError
    ∧ get_weather
        ⟨.error (), .error (),
         .ok (.wellFormed (.obj
           [("weather", .arr [.obj [("id", .int 800)]]), ("name", .str "A"),
            ("main", .obj [("temp", .int 5)]),
            ("sys", .obj [("sunset", .int 0)])]))⟩
        ⟨.int 0, .int 0⟩ = .error .apiServiceError
    ∧ get_weather
        ⟨.error (), .error (),
         .ok (.wellFormed (.obj
           [("weather", .arr [.obj [("id", .int 800)]]), ("name", .str "A"),
            ("main", .obj [("temp", .int 5)]),
            ("sys", .obj [("sunrise", .int 0)])]))⟩
        ⟨.int 0, .int 0⟩ = .error .apiServiceError
    ∧ get_weather
        ⟨.error (), .error (),
         .ok (.wellFormed (.obj [("weather", .arr []), ("name", .str "A")]))⟩
        ⟨.int 0, .int 0⟩ = .error .apiServiceError :=
  ⟨c5_missing_fields_api_error.1 _ ⟨.int 0, .int 0⟩ _ [] .CLEAR (.str "A")
     rfl rfl rfl rfl rfl,
   c5_missing_fields_api_error.2.1 _ ⟨.int 0, .int 0⟩ _ .CLEAR rfl rfl rfl,
   c5_missing_fields_api_error.2.2.1 _ ⟨.int 0, .int 0⟩ _
     [("sunset", .int 0)] .CLEAR (.str "A") (.int 5) rfl rfl rfl rfl rfl rfl,
   c5_missing_fields_api_error.2.2.2.1 _ ⟨.int 0, .int 0⟩ _
     [("sunrise", .int 0)] .CLEAR (.str "A") (.int 5) ⟨0⟩
     rfl rfl rfl rfl rfl rfl rfl,
   c5_missing_fields_api_error.2.2.2.2 _ ⟨.int 0, .int 0⟩ _ rfl rfl⟩

/-- C7: sunrise/sunset conversion is a deterministic function of the Unix
timestamp — the same timestamp value always yields the same UTC instant,
and `_parse_sun_time` on a response with integer timestamp `t` yields
exactly the instant `t` seconds after the epoch; timestamp 0 converts to
00:00:00 UTC on 1970-01-01. -/
theorem c7_sun_time_deterministic_and_epoch :
    (∀ v₁ v₂ : JValue, v₁ = v₂ →
        datetime_fromtimestamp_utc v₁ = datetime_fromtimestamp_utc v₂)
    ∧ (∀ (fields sysf : List (String × JValue)) (t : Int),
        lookupFirst fields "sys" = some (.obj sysf) →
        lookupFirst sysf "sunrise" = some (.int t) →
        _parse_sun_time (.obj fields) "sunrise" = .ok ⟨(t : ℚ)⟩)
    ∧ datetime_fromtimestamp_utc (.int 0) = .ok ⟨0⟩
    ∧ (Datetime.mk 0).dateUTC = (1970, 1, 1)
    ∧ (Datetime.mk 0).hour = 0
    ∧ (Datetime.mk 0).minute = 0
    ∧ (Datetime.mk 0).second = 0 := by
  refine ⟨fun v₁ v₂ h => by rw [h], ?_,
    by simp [datetime_fromtimestamp_utc], by decide, by decide,
    by decide, by decide⟩
  intro fields sysf t h1 h2
  simp [_parse_sun_time, getItemStr, h1, h2, datetime_fromtimestamp_utc]

/-- Witness for C7 at concrete inputs: equal timestamps give equal results,
and a concrete response with `sys.sunrise = 0` parses to the epoch
instant. -/
theorem c7_sun_time_deterministic_and_epoch_witness :
    datetime_fromtimestamp_utc (.int 42) = datetime_fromtimestamp_utc (.int 42)
    ∧ _parse_sun_time
        (.obj [("sys", .obj [("sunrise", .int 0), ("sunset", .int 1)])])
        "sunrise" = .ok ⟨(0 : Int)⟩ :=
  ⟨c7_sun_time_deterministic_and_epoch.1 (.int 42) (.int 42) rfl,
   c7_sun_time_deterministic_and_epoch.2.1
     [("sys", .obj [("sunrise", .int 0), ("sunset", .int 1)])]
     [("sunrise", .int 0), ("sunset", .int 1)] 0 rfl rfl⟩

/-- C8: `format_weather` produces exactly the fixed multi-line template —
a blank line, `<city> - <condition label>:`, ` - Temperature: <t>°C`,
` - Sunrise: <HH:MM>`, ` - Sunset: <HH:MM>`, and a final newline — where
the condition labels are the source's verbatim `Enum` values including the
literal spelling "Thundershtorm"; a closed instance shows the concrete
rendering including zero-padded times. -/
theorem c8_format_template (w : Weather) :
    format_weather w =
      "\n" ++ pyStr w.city ++ " - " ++ WeatherType.value w.weather_type
        ++ ":\n" ++ " - Temperature: " ++ pyStr w.temperature ++ "°C\n"
        ++ " - Sunrise: " ++ pad2 w.sunrise.hour ++ ":" ++ pad2 w.sunrise.minute
        ++ "\n" ++ " - Sunset: " ++ pad2 w.sunset.hour ++ ":"
        ++ pad2 w.sunset.minute ++ "\n"
    ∧ WeatherType.value .THUNDERSHTORM = "Thundershtorm"
    ∧ format_weather ⟨.THUNDERSHTORM, .str "Oslo", .int 5, ⟨3660⟩, ⟨60000⟩⟩ =
        "\nOslo - Thundershtorm:\n - Temperature: 5°C\n" ++
          " - Sunrise: 01:01\n - Sunset: 16:40\n" := by
  refine ⟨?_, rfl, rfl⟩
  simp [format_weather, strftimeHM, String.append_assoc]

/-- C9: the entry point maps the two declared error kinds to a silent exit
with code 1 — a `GetCoordinatesError` from the coordinates stage or an
`ApiServiceError` from the weather stage each terminate the process with
exit code 1 printing nothing — while on success the formatted report is
printed and the process exits with code 0. -/
theorem c9_exit_codes (env : Env) :
    (fetch_user_coordinates env = .error .getCoordinatesError →
        py_main env = .exited 1 "")
    ∧ (∀ c : Coordinates, fetch_user_coordinates env = .ok c →
        get_weather env c = .error .apiServiceError →
        py_main env = .exited 1 "")
    ∧ (∀ (c : Coordinates) (w : Weather), fetch_user_coordinates env = .ok c →
        get_weather env c = .ok w →
        py_main env = .exited 0 (format_weather w ++ "\n")) := by
  refine ⟨?_, ?_, ?_⟩
  · intro h
    simp [py_main, h]
  · intro c h1 h2
    simp [py_main, h1, h2]
  · intro c w h1 h2
    simp [py_main, h1, h2]

/-- Witness for C9 at three concrete environments: a transport failure in
the IP stage (exit 1, nothing printed), a transport failure in the weather
stage after good coordinates (exit 1, nothing printed), and a fully valid
run (exit 0 with the printed report). -/
theorem c9_exit_codes_witness :
    py_main ⟨.error (), .error (), .error ()⟩ = .exited 1 ""
    ∧ py_main
        ⟨.ok (.wellFormed (.obj [("ip", .str "1.2.3.4")])),
         .ok (.wellFormed (.obj
           [("latitude", .int 1), ("longitude", .int 2)])),
         .error ()⟩ = .exited 1 ""
    ∧ py_main
        ⟨.ok (.wellFormed (.obj [("ip", .str "1.2.3.4")])),
         .ok (.wellFormed (.obj
           [("latitude", .float (103 / 2)), ("longitude", .float (-3 / 25))])),
         .ok (.wellFormed (.obj
           [("weather", .arr [.obj [("id", .int 800)]]),
            ("name", .str "London"),
            ("main", .obj [("temp", .float 15)]),
            ("sys", .obj
              [("sunrise", .int 1700000000), ("sunset", .int 1700030000)])]))⟩ =
        .exited 0 (format_weather
          ⟨.CLEAR, .str "London", .float 15, ⟨1700000000⟩, ⟨1700030000⟩⟩
          ++ "\n") :=
  ⟨(c9_exit_codes ⟨.error (), .error (), .error ()⟩).1 rfl,
   (c9_exit_codes _).2.1 ⟨.int 1, .int 2⟩ rfl rfl,
   (c9_exit_codes _).2.2 ⟨.float (103 / 2), .float (-3 / 25)⟩
     ⟨.CLEAR, .str "London", .float 15, ⟨1700000000⟩, ⟨1700030000⟩⟩ rfl rfl⟩

/-- C10: the weather-parsing stage maps only missing-key, missing-index and
JSON-decode failures to `ApiServiceError`; when `sys.sunrise` is present
but holds a non-numeric string, `fromtimestamp` raises `TypeError`, which
the `except KeyError` handler does not catch: it is a different exception
from `ApiServiceError` and escapes `get_weather`'s documented error
contract, as the concrete otherwise-valid response shows. -/
theorem c10_wrong_type_sun_time_escapes :
    (∀ (d sysv : JValue) (s : String),
        getItemStr d "sys" = .ok sysv →
        getItemStr sysv "sunrise" = .ok (.str s) →
        _parse_sun_time d "sunrise" = .error .typeError)
    ∧ PyExc.typeError ≠ PyExc.apiServiceError
    ∧ get_weather
        ⟨.ok (.wellFormed (.obj [("ip", .str "1.2.3.4")])),
         .ok (.wellFormed (.obj
           [("latitude", .int 1), ("longitude", .int 2)])),
         .ok (.wellFormed (.obj
           [("weather", .arr [.obj [("id", .int 800)]]),
            ("name", .str "City"),
            ("main", .obj [("temp", .int 20)]),
            ("sys", .obj [("sunrise", .str "abc"), ("sunset", .int 0)])]))⟩
        ⟨.int 1, .int 2⟩ = .error .typeError := by
  refine ⟨?_, by decide, rfl⟩
  intro d sysv s h1 h2
  simp [_parse_sun_time, h1, h2, datetime_fromtimestamp_utc]

/-- Witness for C10 at a concrete document whose `sys.sunrise` is the
string "abc". -/
theorem c10_wrong_type_sun_time_escapes_witness :
    _parse_sun_time (.obj [("sys", .obj [("sunrise", .str "abc")])])
      "sunrise" = .error .typeError :=
  c10_wrong_type_sun_time_escapes.1
    (.obj [("sys", .obj [("sunrise", .str "abc")])])
    (.obj [("sunrise", .str "abc")]) "abc" rfl rfl
